import Mathlib

set_option linter.unusedVariables false

/-
Shallow embedding of the prometheus-operator configuration generators:
  * src/pkg/prometheus/promcfg.go   (generateConfig, generateServiceMonitorConfig,
                                     generateAlertmanagerConfig, sanitizeLabelName)
  * src/unnamed/part_000            (makeStatefulSet, makeStatefulSetSpec,
                                     makeStatefulSetService, package alertmanager)

Conventions of the embedding:
  * Go strings are Lean `String`s; Go int32/int64 are Lean `Int`.
  * `intstr.IntOrString` is a record with the Go `Type` discriminant modelled as
    `isString : Bool` (false = Int, true = String); its Go `String()` method
    (StrVal when string-typed, strconv.Itoa(IntVal) otherwise) is
    `IntOrString.string`.
  * The Go output maps built with only some keys present are records whose
    optional keys are `Option` fields (`none` = key absent).
  * Go maps that the code ranges over (the monitors map in generateConfig and
    `Selector.MatchLabels`) are association lists in iteration order; Go leaves
    that order unspecified, so any permutation of the same entries represents
    the same map value.
  * The Go field `Namespace` is `nspace` (`namespace` is a Lean keyword).
  * gopkg.in/yaml.v2 marshals Go maps with sorted keys and preserves slice
    order, so the marshalled bytes are determined by, and injective in, the
    structured document below: byte equality of outputs coincides with
    equality of `PrometheusConfigDoc` values.
-/

structure IntOrString where
  isString : Bool := false
  intVal : Int := 0
  strVal : String := ""
deriving DecidableEq, Repr

def IntOrString.string (p : IntOrString) : String :=
  if p.isString then p.strVal else toString p.intVal

structure LabelSelectorRequirement where
  key : String
  operator : String
  values : List String := []
deriving DecidableEq, Repr

structure LabelSelector where
  matchLabels : List (String × String) := []
  matchExpressions : List LabelSelectorRequirement := []
deriving DecidableEq, Repr

structure NamespaceSelector where
  any : Bool := false
  matchNames : List String := []
deriving DecidableEq, Repr

structure Endpoint where
  port : String := ""
  targetPort : IntOrString := {}
  path : String := ""
  scheme : String := ""
  interval : String := ""
deriving DecidableEq, Repr

structure ServiceMonitorSpec where
  jobLabel : String := ""
  selector : LabelSelector := {}
  namespaceSelector : NamespaceSelector := {}
  endpoints : List Endpoint := []
deriving DecidableEq, Repr

structure ServiceMonitor where
  nspace : String := ""
  name : String := ""
  spec : ServiceMonitorSpec := {}
deriving DecidableEq, Repr

structure AlertmanagerEndpoints where
  nspace : String := ""
  name : String := ""
  port : IntOrString := {}
  scheme : String := ""
deriving DecidableEq, Repr

structure AlertingSpec where
  alertmanagers : List AlertmanagerEndpoints := []
deriving DecidableEq, Repr

structure PrometheusSpec where
  alerting : AlertingSpec := {}
deriving DecidableEq, Repr

structure Prometheus where
  spec : PrometheusSpec := {}
deriving DecidableEq, Repr

/-- One relabel rule: the Go code builds each as a map with only the listed
keys present, modelled by `Option` fields (`none` = key absent). -/
structure Relabeling where
  action : Option String := none
  sourceLabels : Option (List String) := none
  regex : Option String := none
  targetLabel : Option String := none
  replacement : Option String := none
deriving DecidableEq, Repr

structure ScrapeConfig where
  jobName : String
  sdRole : String
  scrapeInterval : Option String := none
  metricsPath : Option String := none
  scheme : Option String := none
  relabelConfigs : List Relabeling := []
deriving DecidableEq, Repr

structure AlertmanagerConfig where
  sdRole : String
  scheme : String
  relabelConfigs : List Relabeling := []
deriving DecidableEq, Repr

structure PrometheusConfigDoc where
  globalEvaluationInterval : String
  globalScrapeInterval : String
  ruleFiles : List String
  scrapeConfigs : List ScrapeConfig
  alertmanagers : List AlertmanagerConfig
deriving DecidableEq, Repr

/-- The character class the Go regexp `[^a-zA-Z0-9_]` leaves untouched. -/
def isValidLabelChar (c : Char) : Bool :=
  decide ((97 ≤ c.toNat ∧ c.toNat ≤ 122) ∨ (65 ≤ c.toNat ∧ c.toNat ≤ 90) ∨
          (48 ≤ c.toNat ∧ c.toNat ≤ 57) ∨ c.toNat = 95)

/-- `sanitizeLabelName`: replace every character outside `[a-zA-Z0-9_]` by `_`. -/
def sanitizeLabelName (name : String) : String :=
  String.mk (name.data.map fun c => if isValidLabelChar c then c else Char.ofNat 95)

/-- Rule emitted for one exact-match selector entry (promcfg.go, MatchLabels loop). -/
def matchLabelRule (kv : String × String) : Relabeling :=
  { action := some "keep",
    sourceLabels := some ["__meta_kubernetes_service_label_" ++ sanitizeLabelName kv.1],
    regex := some kv.2 }

/-- Rules emitted for one set-based selector expression
(promcfg.go, the `switch exp.Operator` statement). -/
def exprRules (exp : LabelSelectorRequirement) : List Relabeling :=
  if exp.operator = "In" then
    [{ action := some "keep",
       sourceLabels := some ["__meta_kubernetes_service_label_" ++ sanitizeLabelName exp.key],
       regex := some (String.intercalate "|" exp.values) }]
  else if exp.operator = "NotIn" then
    [{ action := some "drop",
       sourceLabels := some ["__meta_kubernetes_service_label_" ++ sanitizeLabelName exp.key],
       regex := some (String.intercalate "|" exp.values) }]
  else if exp.operator = "Exists" then
    [{ action := some "keep",
       sourceLabels := some ["__meta_kubernetes_service_label_" ++ sanitizeLabelName exp.key],
       regex := some ".+" }]
  else if exp.operator = "DoesNotExist" then
    [{ action := some "drop",
       sourceLabels := some ["__meta_kubernetes_service_label_" ++ sanitizeLabelName exp.key],
       regex := some ".+" }]
  else []

/-- Namespace-filter rules (promcfg.go, the `nsel` if/else chain). -/
def nsRules (m : ServiceMonitor) : List Relabeling :=
  if ¬ m.spec.namespaceSelector.any = true ∧ m.spec.namespaceSelector.matchNames.length = 0 then
    [{ action := some "keep",
       sourceLabels := some ["__meta_kubernetes_namespace"],
       regex := some m.nspace }]
  else if m.spec.namespaceSelector.matchNames.length > 0 then
    [{ action := some "keep",
       sourceLabels := some ["__meta_kubernetes_namespace"],
       regex := some (String.intercalate "|" m.spec.namespaceSelector.matchNames) }]
  else []

/-- Port-filter rules (promcfg.go, the `ep.Port` / `ep.TargetPort` if/else chain). -/
def portFilterRules (ep : Endpoint) : List Relabeling :=
  if ep.port ≠ "" then
    [{ action := some "keep",
       sourceLabels := some ["__meta_kubernetes_endpoint_port_name"],
       regex := some ep.port }]
  else if ep.targetPort.strVal ≠ "" then
    [{ action := some "keep",
       sourceLabels := some ["__meta_kubernetes_container_port_name"],
       regex := some ep.targetPort.string }]
  else if ep.targetPort.intVal ≠ 0 then
    [{ action := some "keep",
       sourceLabels := some ["__meta_kubernetes_container_port_number"],
       regex := some ep.targetPort.string }]
  else []

/-- The four fixed structural rules always appended by generateServiceMonitorConfig. -/
def structuralRules : List Relabeling :=
  [{ sourceLabels := some ["__meta_kubernetes_namespace"], targetLabel := some "namespace" },
   { action := some "labelmap",
     regex := some "__meta_kubernetes_service_label_(.+)",
     replacement := some "svc_$1" },
   { action := some "replace",
     targetLabel := some "__meta_kubernetes_pod_label_pod_template_hash",
     replacement := some "" },
   { action := some "labelmap",
     regex := some "__meta_kubernetes_pod_label_(.+)",
     replacement := some "pod_$1" }]

/-- Default job-name rules (promcfg.go, the block after the structural rules). -/
def jobRules (ep : Endpoint) : List Relabeling :=
  if ep.port ≠ "" then
    [{ sourceLabels := some ["__meta_kubernetes_service_name"],
       targetLabel := some "job",
       replacement := some ("${1}-" ++ ep.port) }]
  else if ep.targetPort.string ≠ "" then
    [{ sourceLabels := some ["__meta_kubernetes_service_name"],
       targetLabel := some "job",
       replacement := some ("${1}-" ++ ep.targetPort.string) }]
  else []

/-- JobLabel-based job-name rules (promcfg.go, the `m.Spec.JobLabel` block). -/
def jobLabelRules (m : ServiceMonitor) (ep : Endpoint) : List Relabeling :=
  if m.spec.jobLabel ≠ "" then
    if ep.port ≠ "" then
      [{ sourceLabels := some ["__meta_kubernetes_service_label_" ++ sanitizeLabelName m.spec.jobLabel],
         targetLabel := some "job",
         regex := some "(.+)",
         replacement := some ("${1}-" ++ ep.port) }]
    else if ep.targetPort.string ≠ "" then
      [{ sourceLabels := some ["__meta_kubernetes_service_label_" ++ sanitizeLabelName m.spec.jobLabel],
         targetLabel := some "job",
         regex := some "(.+)",
         replacement := some ("${1}-" ++ ep.targetPort.string) }]
    else []
  else []

/-- generateServiceMonitorConfig from promcfg.go, with the relabel rules built
in exactly the source's append order. -/
def generateServiceMonitorConfig (m : ServiceMonitor) (ep : Endpoint) (i : Nat) : ScrapeConfig :=
  { jobName := m.nspace ++ "/" ++ m.name ++ "/" ++ toString i,
    sdRole := "endpoints",
    scrapeInterval := if ep.interval ≠ "" then some ep.interval else none,
    metricsPath := if ep.path ≠ "" then some ep.path else none,
    scheme := if ep.scheme ≠ "" then some ep.scheme else none,
    relabelConfigs :=
      m.spec.selector.matchLabels.map matchLabelRule
      ++ m.spec.selector.matchExpressions.flatMap exprRules
      ++ nsRules m
      ++ portFilterRules ep
      ++ structuralRules
      ++ jobRules ep
      ++ jobLabelRules m ep }

/-- generateAlertmanagerConfig from promcfg.go. -/
def generateAlertmanagerConfig (am : AlertmanagerEndpoints) : AlertmanagerConfig :=
  let scheme := if am.scheme = "" then "http" else am.scheme
  { sdRole := "endpoints",
    scheme := scheme,
    relabelConfigs :=
      [{ action := some "keep",
         sourceLabels := some ["__meta_kubernetes_service_name"],
         regex := some am.name },
       { action := some "keep",
         sourceLabels := some ["__meta_kubernetes_namespace"],
         regex := some am.nspace }]
      ++ (if am.port.strVal ≠ "" then
            [{ action := some "keep",
               sourceLabels := some ["__meta_kubernetes_endpoint_port_name"],
               regex := some am.port.string }]
          else if am.port.intVal ≠ 0 then
            [{ action := some "keep",
               sourceLabels := some ["__meta_kubernetes_container_port_number"],
               regex := some am.port.string }]
          else []) }

/-- generateConfig from promcfg.go.  `mons` is the iteration sequence of the Go
map `map[string]*spec.ServiceMonitor`: Go fixes the entries but not their
order, so the same map is represented by every permutation of `mons`. -/
def generateConfig (p : Prometheus) (mons : List ServiceMonitor) : PrometheusConfigDoc :=
  { globalEvaluationInterval := "30s",
    globalScrapeInterval := "30s",
    ruleFiles := ["/etc/prometheus/rules/*.rules"],
    scrapeConfigs := mons.flatMap fun mon =>
      mon.spec.endpoints.enum.map fun ie => generateServiceMonitorConfig mon ie.2 ie.1,
    alertmanagers := p.spec.alerting.alertmanagers.map generateAlertmanagerConfig }

/- ---------------------------------------------------------------------------
Embedding of src/unnamed/part_000 (package alertmanager): the Kubernetes
object shapes the code constructs, then makeStatefulSetSpec, makeStatefulSet
and makeStatefulSetService.  Go label/annotation maps are association lists.
--------------------------------------------------------------------------- -/

structure ObjectMeta where
  name : String := ""
  labels : List (String × String) := []
  annotations : List (String × String) := []
deriving DecidableEq, Repr

structure ContainerPort where
  name : String
  containerPort : Int
  protocol : String
deriving DecidableEq, Repr

structure VolumeMount where
  name : String
  readOnly : Bool := false
  mountPath : String
  subPath : String := ""
deriving DecidableEq, Repr

structure ResourceRequirements where
  limits : List (String × String) := []
  requests : List (String × String) := []
deriving DecidableEq, Repr

structure Container where
  name : String
  image : String
  command : List String := []
  args : List String := []
  ports : List ContainerPort := []
  volumeMounts : List VolumeMount := []
  resources : ResourceRequirements := {}
deriving DecidableEq, Repr

/-- The two v1.VolumeSource cases the code constructs. -/
inductive VolumeSource where
  | emptyDir
  | configMap (name : String)
deriving DecidableEq, Repr

structure Volume where
  name : String
  source : VolumeSource
deriving DecidableEq, Repr

structure PodSpec where
  terminationGracePeriodSeconds : Option Int := none
  containers : List Container := []
  volumes : List Volume := []
deriving DecidableEq, Repr

structure PodTemplateSpec where
  meta : ObjectMeta := {}
  spec : PodSpec := {}
deriving DecidableEq, Repr

structure PersistentVolumeClaimSpec where
  accessModes : List String := []
  resources : ResourceRequirements := {}
  selector : Option LabelSelector := none
deriving DecidableEq, Repr

structure PersistentVolumeClaim where
  meta : ObjectMeta := {}
  spec : PersistentVolumeClaimSpec := {}
deriving DecidableEq, Repr

structure StatefulSetSpec where
  serviceName : String := ""
  replicas : Int := 0
  template : PodTemplateSpec := {}
  volumeClaimTemplates : List PersistentVolumeClaim := []
deriving DecidableEq, Repr

structure StatefulSet where
  meta : ObjectMeta := {}
  spec : StatefulSetSpec := {}
deriving DecidableEq, Repr

structure ServicePort where
  name : String
  port : Int
  targetPort : IntOrString
  protocol : String
deriving DecidableEq, Repr

structure ServiceSpec where
  clusterIP : String := ""
  ports : List ServicePort := []
  selector : List (String × String) := []
deriving DecidableEq, Repr

structure Service where
  meta : ObjectMeta := {}
  spec : ServiceSpec := {}
deriving DecidableEq, Repr

/-- spec.StorageSpec (field `Class` is the storage-class name). -/
structure StorageSpec where
  Class : String := ""
  selector : Option LabelSelector := none
  resources : ResourceRequirements := {}
deriving DecidableEq, Repr

structure AlertmanagerSpec where
  baseImage : String := ""
  version : String := ""
  replicas : Int := 0
  storage : Option StorageSpec := none
deriving DecidableEq, Repr

structure Alertmanager where
  nspace : String := ""
  name : String := ""
  spec : AlertmanagerSpec := {}
deriving DecidableEq, Repr

/-- makeStatefulSetSpec from part_000.  The peer loop `for i := 0; i < replicas`
is `List.range replicas.toNat` (empty when replicas is not positive). -/
def makeStatefulSetSpec (ns name image version : String) (replicas : Int) : StatefulSetSpec :=
  let commands : List String :=
    ["/bin/alertmanager",
     "-config.file=" ++ "/etc/alertmanager/config/alertmanager.yaml",
     "-web.listen-address=:" ++ toString (9093 : Int),
     "-mesh.listen-address=:" ++ toString (6783 : Int),
     "-storage.path=" ++ "/etc/alertmanager/data"]
    ++ (List.range replicas.toNat).map fun i =>
         "-mesh.peer=" ++ name ++ "-" ++ toString i ++ "." ++ "alertmanager" ++ "." ++ ns ++ ".svc"
  { serviceName := "alertmanager",
    replicas := replicas,
    template :=
      { meta := { labels := [("app", "alertmanager"), ("alertmanager", name)] },
        spec :=
          { terminationGracePeriodSeconds := some 0,
            containers :=
              [{ name := name,
                 image := image,
                 command := commands,
                 ports :=
                   [{ name := "web", containerPort := 9093, protocol := "TCP" },
                    { name := "mesh", containerPort := 6783, protocol := "TCP" }],
                 volumeMounts :=
                   [{ name := "config-volume", mountPath := "/etc/alertmanager/config" },
                    { name := name ++ "-db", mountPath := "/var/alertmanager/data",
                      subPath := "alertmanager-db" }] },
               { name := "config-reloader",
                 image := "jimmidyson/configmap-reload",
                 args :=
                   ["-webhook-url=http://localhost:9093/-/reload",
                    "-volume-dir=/etc/alertmanager/config"],
                 volumeMounts :=
                   [{ name := "config-volume", readOnly := true,
                      mountPath := "/etc/alertmanager/config" }],
                 resources := { limits := [("cpu", "5m"), ("memory", "10Mi")] } }],
            volumes := [{ name := "config-volume", source := VolumeSource.configMap name }] } } }

/-- makeStatefulSet from part_000. -/
def makeStatefulSet (am : Alertmanager) (old : Option StatefulSet) : StatefulSet :=
  let baseImage := if am.spec.baseImage = "" then "quay.io/prometheus/alertmanager" else am.spec.baseImage
  let version := if am.spec.version = "" then "v0.5.1" else am.spec.version
  let replicas := if am.spec.replicas < 1 then 1 else am.spec.replicas
  let image := baseImage ++ ":" ++ version
  let base : StatefulSet :=
    { meta := { name := am.name },
      spec := makeStatefulSetSpec am.nspace am.name image version replicas }
  let withStorage : StatefulSet :=
    match am.spec.storage with
    | none =>
      { base with spec := { base.spec with template := { base.spec.template with
          spec := { base.spec.template.spec with
            volumes := base.spec.template.spec.volumes ++
              [{ name := am.name ++ "-db", source := VolumeSource.emptyDir }] } } } }
    | some vc =>
      let pvc : PersistentVolumeClaim :=
        { meta :=
            { name := am.name ++ "-db",
              annotations :=
                if vc.Class.length > 0 then
                  [("volume.beta.kubernetes.io/storage-class", vc.Class)]
                else [] },
          spec :=
            { accessModes := ["ReadWriteOnce"],
              resources := vc.resources,
              selector := vc.selector } }
      { base with spec := { base.spec with
          volumeClaimTemplates := base.spec.volumeClaimTemplates ++ [pvc] } }
  match old with
  | none => withStorage
  | some o => { withStorage with meta := { withStorage.meta with annotations := o.meta.annotations } }

/-- makeStatefulSetService from part_000. -/
def makeStatefulSetService (p : Alertmanager) : Service :=
  { meta := { name := "alertmanager" },
    spec :=
      { clusterIP := "None",
        ports :=
          [{ name := "web", port := 9093, targetPort := { intVal := 9093 }, protocol := "TCP" },
           { name := "mesh", port := 6783, targetPort := { intVal := 6783 }, protocol := "TCP" }],
        selector := [("app", "alertmanager")] } }

/- ---------------------------------------------------------------------------
Rule classifiers and helper lemmas.
--------------------------------------------------------------------------- -/

/-- A relabel rule is a job-rewrite rule when it writes the `job` target label;
in the generated configurations only the job-name rules do. -/
def isJobRule (r : Relabeling) : Bool := decide (r.targetLabel = some "job")

/-- A relabel rule is a namespace-filter rule when it is a keep rule sourced
from the discovered namespace label. -/
def isNsFilterRule (r : Relabeling) : Bool :=
  decide (r.action = some "keep" ∧ r.sourceLabels = some ["__meta_kubernetes_namespace"])

lemma anyJob_matchLabels (ls : List (String × String)) :
    (ls.map matchLabelRule).any isJobRule = false := by
  simp only [List.any_eq_false, List.mem_map]
  rintro r ⟨kv, _, rfl⟩
  simp [isJobRule, matchLabelRule]

lemma anyJob_exprRules (e : LabelSelectorRequirement) :
    (exprRules e).any isJobRule = false := by
  unfold exprRules
  repeat' split
  all_goals rfl

lemma anyJob_exprList (exps : List LabelSelectorRequirement) :
    (exps.flatMap exprRules).any isJobRule = false := by
  simp [List.any_flatMap, anyJob_exprRules]

lemma anyJob_nsRules (m : ServiceMonitor) : (nsRules m).any isJobRule = false := by
  unfold nsRules
  repeat' split
  all_goals rfl

lemma anyJob_portFilterRules (ep : Endpoint) : (portFilterRules ep).any isJobRule = false := by
  unfold portFilterRules
  repeat' split
  all_goals rfl

lemma anyJob_structuralRules : structuralRules.any isJobRule = false := rfl

/- ---------------------------------------------------------------------------
Concrete inputs used by counterexamples and witnesses.
--------------------------------------------------------------------------- -/

/-- An endpoint whose target port is numeric-only (Go zero-valued `Type`,
i.e. int-typed, nonzero `IntVal`, empty `StrVal`, empty named port). -/
def epNumericPort : Endpoint := { targetPort := { intVal := 9090 } }

/-- A monitor with every field zero-valued. -/
def monEmpty : ServiceMonitor := {}

/-- The endpoint of the worked selector example: named port `web`. -/
def epWeb : Endpoint := { port := "web" }

/-- The worked selector example: exact-match selector `{team: x}`, no
expressions, default namespace scoping, one endpoint with port `web`. -/
def monSelectorExample (ns name : String) : ServiceMonitor :=
  { nspace := ns, name := name,
    spec := { selector := { matchLabels := [("team", "x")] },
              endpoints := [epWeb] } }

def monA : ServiceMonitor := { nspace := "ns1", name := "a", spec := { endpoints := [{}] } }

def monB : ServiceMonitor := { nspace := "ns1", name := "b", spec := { endpoints := [{}] } }

def promEmpty : Prometheus := {}

/-- Replace a monitor's exact-match selector entries, keeping every other
field.  The iteration sequences of one Go `MatchLabels` map are exactly the
permutations of its entry list, so the monitor values denoting the same
input are `m` and `withMatchLabels m ls` for `ls` ranging over those
permutations. -/
def withMatchLabels (m : ServiceMonitor) (ls : List (String × String)) : ServiceMonitor :=
  { m with spec := { m.spec with selector := { m.spec.selector with matchLabels := ls } } }

/-- Two monitor values denote the same monitor input when they differ only
in the iteration order of the `MatchLabels` map. -/
def SameMonitorMap (m1 m2 : ServiceMonitor) : Prop :=
  ∃ ls, m1.spec.selector.matchLabels.Perm ls ∧ m2 = withMatchLabels m1 ls

/-- Two iteration sequences denote the same monitors map when they list, in
some order, monitor values denoting the same inputs: this is what "two
invocations on the same inputs" means for generateConfig, whose Go input is
a map of monitors each holding a `MatchLabels` map. -/
def SameInputs (mons1 mons2 : List ServiceMonitor) : Prop :=
  ∃ mid, List.Forall₂ SameMonitorMap mons1 mid ∧ mid.Perm mons2

/-- Two scrape jobs agree up to the iteration order of the exact-match
selector rules: every scalar field is equal and the relabel-rule lists are
permutations of each other. -/
def SameScrapeJob (c1 c2 : ScrapeConfig) : Prop :=
  c1.jobName = c2.jobName ∧ c1.sdRole = c2.sdRole ∧
  c1.scrapeInterval = c2.scrapeInterval ∧ c1.metricsPath = c2.metricsPath ∧
  c1.scheme = c2.scheme ∧ c1.relabelConfigs.Perm c2.relabelConfigs

/-- A monitor whose `MatchLabels` map has two entries, iterated `a` first. -/
def monLabelsAB : ServiceMonitor :=
  { nspace := "ns1", name := "c",
    spec := { selector := { matchLabels := [("a", "1"), ("b", "2")] },
              endpoints := [{}] } }

/-- The same monitor input as `monLabelsAB`, iterated `b` first. -/
def monLabelsBA : ServiceMonitor :=
  { nspace := "ns1", name := "c",
    spec := { selector := { matchLabels := [("b", "2"), ("a", "1")] },
              endpoints := [{}] } }

/- ---------------------------------------------------------------------------
Claim theorems.
--------------------------------------------------------------------------- -/

/-- Claim C1, counterexample.  The claim states that a numeric-only target
port yields no job-rewrite rule.  On the code, for an endpoint with no named
port and an int-typed target port 9090, `generateServiceMonitorConfig` does
emit a job-rewrite rule (replacement `${1}-9090`), because the Go
`IntOrString.String()` of an int-typed port is `strconv.Itoa(IntVal)` and is
never empty. -/
theorem claim_C1_counterexample :
    epNumericPort.port = "" ∧
    epNumericPort.targetPort.isString = false ∧
    epNumericPort.targetPort.strVal = "" ∧
    epNumericPort.targetPort.intVal ≠ 0 ∧
    ((generateServiceMonitorConfig monEmpty epNumericPort 0).relabelConfigs.any isJobRule) = true ∧
    ((generateServiceMonitorConfig monEmpty epNumericPort 0).relabelConfigs.filter isJobRule) =
      [{ sourceLabels := some ["__meta_kubernetes_service_name"],
         targetLabel := some "job",
         replacement := some "${1}-9090" }] := by
  refine ⟨rfl, rfl, rfl, by decide, ?_, ?_⟩ <;> rfl

/-- Claim C1, amended.  A job-rewrite rule (target label `job`) is present in
the output iff the endpoint has a named port or its target port's Go
`String()` form is non-empty; the latter holds for every int-typed target
port (numeric-only and even fully unset, which stringifies to `"0"`), and
fails only for a string-typed target port whose value is empty.  In the
fully-unset case no port-filter rule is emitted, as the claim states. -/
theorem claim_C1_amended (m : ServiceMonitor) (ep : Endpoint) (i : Nat) :
    (((generateServiceMonitorConfig m ep i).relabelConfigs.any isJobRule) = true ↔
      (ep.port ≠ "" ∨ ep.targetPort.string ≠ "")) ∧
    (ep.port = "" → ep.targetPort.strVal = "" → ep.targetPort.intVal = 0 →
      portFilterRules ep = []) := by
  constructor
  · simp only [generateServiceMonitorConfig, List.any_append, anyJob_matchLabels,
      anyJob_exprList, anyJob_nsRules, anyJob_portFilterRules, anyJob_structuralRules,
      Bool.false_or]
    by_cases hp : ep.port = ""
    · by_cases hs : ep.targetPort.string = ""
      · simp [jobRules, jobLabelRules, hp, hs, isJobRule]
      · simp [jobRules, jobLabelRules, hp, hs, isJobRule]
    · simp [jobRules, jobLabelRules, hp, isJobRule]
  · intro h1 h2 h3
    simp [portFilterRules, h1, h2, h3]

/-- Claim C1, witness for the amended theorem's implication at the fully-unset
endpoint. -/
theorem claim_C1_witness : portFilterRules {} = [] :=
  (claim_C1_amended monEmpty {} 0).2 rfl rfl rfl

/-- Claim C2, counterexample.  For the worked example (selector `{team: x}`,
no expressions, default namespace scope, one endpoint with port `web`) the
builder emits 8 relabel rules, not the claimed 7: the enumerated rules
(3 keeps + 4 structural + 1 job rewrite) already number 8. -/
theorem claim_C2_counterexample :
    (generateServiceMonitorConfig (monSelectorExample "ns1" "mon1") epWeb 0).relabelConfigs.length = 8 ∧
    (generateServiceMonitorConfig (monSelectorExample "ns1" "mon1") epWeb 0).relabelConfigs.length ≠ 7 := by
  refine ⟨rfl, by decide⟩

/-- Claim C2, amended.  For every namespace and name, the worked example
produces exactly 8 relabel rules, in the claimed order: keep on the `team`
service label (regex `x`), keep on namespace (regex = the monitor's
namespace), keep on endpoint port name (regex `web`), the four fixed
structural rules, then the job rewrite with replacement `${1}-web`. -/
theorem claim_C2_amended (ns name : String) :
    (generateServiceMonitorConfig (monSelectorExample ns name) epWeb 0).relabelConfigs =
      [{ action := some "keep",
         sourceLabels := some ["__meta_kubernetes_service_label_team"],
         regex := some "x" },
       { action := some "keep",
         sourceLabels := some ["__meta_kubernetes_namespace"],
         regex := some ns },
       { action := some "keep",
         sourceLabels := some ["__meta_kubernetes_endpoint_port_name"],
         regex := some "web" },
       { sourceLabels := some ["__meta_kubernetes_namespace"],
         targetLabel := some "namespace" },
       { action := some "labelmap",
         regex := some "__meta_kubernetes_service_label_(.+)",
         replacement := some "svc_$1" },
       { action := some "replace",
         targetLabel := some "__meta_kubernetes_pod_label_pod_template_hash",
         replacement := some "" },
       { action := some "labelmap",
         regex := some "__meta_kubernetes_pod_label_(.+)",
         replacement := some "pod_$1" },
       { sourceLabels := some ["__meta_kubernetes_service_name"],
         targetLabel := some "job",
         replacement := some "${1}-web" }] := rfl

/-- Claim C3, counterexample.  The two monitor lists are permutations of each
other, i.e. they are iteration sequences of the same Go monitors map, yet
`generateConfig` produces different documents (the scrape jobs appear in a
different order, hence different marshalled bytes).  Go does not fix map
iteration order, so the claimed byte-identical determinism fails. -/
theorem claim_C3_counterexample :
    ([monA, monB].Perm [monB, monA]) ∧
    generateConfig promEmpty [monA, monB] ≠ generateConfig promEmpty [monB, monA] := by
  refine ⟨List.Perm.swap monB monA [], ?_⟩
  decide

lemma sameScrapeJob_withMatchLabels (m : ServiceMonitor) (ls : List (String × String))
    (hperm : m.spec.selector.matchLabels.Perm ls) (ep : Endpoint) (i : Nat) :
    SameScrapeJob (generateServiceMonitorConfig m ep i)
      (generateServiceMonitorConfig (withMatchLabels m ls) ep i) := by
  refine ⟨rfl, rfl, rfl, rfl, rfl, ?_⟩
  dsimp only [generateServiceMonitorConfig, withMatchLabels]
  exact ((((((hperm.map matchLabelRule).append_right _).append_right _).append_right
    _).append_right _).append_right _).append_right _

lemma sameJobs_flatMap (mons mid : List ServiceMonitor)
    (h : List.Forall₂ SameMonitorMap mons mid) :
    List.Forall₂ SameScrapeJob
      (mons.flatMap fun mon => mon.spec.endpoints.enum.map fun ie =>
        generateServiceMonitorConfig mon ie.2 ie.1)
      (mid.flatMap fun mon => mon.spec.endpoints.enum.map fun ie =>
        generateServiceMonitorConfig mon ie.2 ie.1) := by
  induction h with
  | nil => exact List.Forall₂.nil
  | @cons a b l₁ l₂ hab hrest ih =>
    simp only [List.flatMap_cons]
    refine List.rel_append ?_ ih
    obtain ⟨ls, hperm, rfl⟩ := hab
    have he : (withMatchLabels a ls).spec.endpoints.enum = a.spec.endpoints.enum := rfl
    rw [he, List.forall₂_map_left_iff, List.forall₂_map_right_iff, List.forall₂_same]
    intro ie _
    exact sameScrapeJob_withMatchLabels a ls hperm ie.2 ie.1

/-- Claim C3, amended.  `generateConfig` is deterministic only up to Go's
unspecified map iteration orders: for any two invocations on the same inputs
- iteration sequences of the same monitors map whose entries carry the same
per-monitor `MatchLabels` maps - the outputs agree on the global settings,
the rule files and the alertmanager blocks, and the scrape-job lists
correspond one-to-one up to reordering of the jobs, corresponding jobs
agreeing on job name, role, interval, path and scheme and carrying the same
relabel rules up to reordering of the exact-match-selector rules.
Byte-identical output (identical job order and rule order) is not
guaranteed. -/
theorem claim_C3_amended (p : Prometheus) (mons1 mons2 : List ServiceMonitor)
    (h : SameInputs mons1 mons2) :
    (generateConfig p mons1).globalEvaluationInterval = (generateConfig p mons2).globalEvaluationInterval ∧
    (generateConfig p mons1).globalScrapeInterval = (generateConfig p mons2).globalScrapeInterval ∧
    (generateConfig p mons1).ruleFiles = (generateConfig p mons2).ruleFiles ∧
    (generateConfig p mons1).alertmanagers = (generateConfig p mons2).alertmanagers ∧
    ∃ mid, List.Forall₂ SameScrapeJob (generateConfig p mons1).scrapeConfigs mid ∧
      mid.Perm (generateConfig p mons2).scrapeConfigs := by
  obtain ⟨midMons, hf, hperm⟩ := h
  refine ⟨rfl, rfl, rfl, rfl,
    midMons.flatMap fun mon => mon.spec.endpoints.enum.map fun ie =>
      generateServiceMonitorConfig mon ie.2 ie.1, ?_, ?_⟩
  · exact sameJobs_flatMap mons1 midMons hf
  · exact hperm.flatMap_right _

/-- Claim C3, witness: the amended theorem applied to two iteration
sequences of the same one-monitor map whose `MatchLabels` map is iterated in
the two possible orders. -/
theorem claim_C3_witness :
    ∃ mid, List.Forall₂ SameScrapeJob (generateConfig promEmpty [monLabelsAB]).scrapeConfigs mid ∧
      mid.Perm ((generateConfig promEmpty [monLabelsBA]).scrapeConfigs) :=
  (claim_C3_amended promEmpty [monLabelsAB] [monLabelsBA]
    ⟨[monLabelsBA],
     List.Forall₂.cons
       ⟨[("b", "2"), ("a", "1")], List.Perm.swap ("b", "2") ("a", "1") [], rfl⟩
       List.Forall₂.nil,
     List.Perm.refl _⟩).2.2.2.2

/-- Claim C4: the set-based selector operators map to relabel rules as
claimed: `In` keeps on the values' alternation, `NotIn` drops on it,
`Exists` keeps on `.+`, `DoesNotExist` drops on `.+`, and every other
operator emits no rule at all. -/
theorem claim_C4 (key op : String) (values : List String) :
    (op = "In" →
      exprRules { key := key, operator := op, values := values } =
        [{ action := some "keep",
           sourceLabels := some ["__meta_kubernetes_service_label_" ++ sanitizeLabelName key],
           regex := some (String.intercalate "|" values) }]) ∧
    (op = "NotIn" →
      exprRules { key := key, operator := op, values := values } =
        [{ action := some "drop",
           sourceLabels := some ["__meta_kubernetes_service_label_" ++ sanitizeLabelName key],
           regex := some (String.intercalate "|" values) }]) ∧
    (op = "Exists" →
      exprRules { key := key, operator := op, values := values } =
        [{ action := some "keep",
           sourceLabels := some ["__meta_kubernetes_service_label_" ++ sanitizeLabelName key],
           regex := some ".+" }]) ∧
    (op = "DoesNotExist" →
      exprRules { key := key, operator := op, values := values } =
        [{ action := some "drop",
           sourceLabels := some ["__meta_kubernetes_service_label_" ++ sanitizeLabelName key],
           regex := some ".+" }]) ∧
    (op ≠ "In" → op ≠ "NotIn" → op ≠ "Exists" → op ≠ "DoesNotExist" →
      exprRules { key := key, operator := op, values := values } = []) := by
  refine ⟨?_, ?_, ?_, ?_, ?_⟩
  · intro h; subst h; rfl
  · intro h; subst h; rfl
  · intro h; subst h; rfl
  · intro h; subst h; rfl
  · intro h1 h2 h3 h4
    simp [exprRules, h1, h2, h3, h4]

/-- Claim C4, witness: the `In` case of the spec's worked example, with the
emitted regex exactly `a|b` and action `keep`. -/
theorem claim_C4_witness :
    exprRules { key := "tier", operator := "In", values := ["a", "b"] } =
      [{ action := some "keep",
         sourceLabels := some ["__meta_kubernetes_service_label_tier"],
         regex := some "a|b" }] :=
  (claim_C4 "tier" "In" ["a", "b"]).1 rfl

/- ---------------------------------------------------------------------------
Claim C5: the namespace-filter rules in the generated configuration.
--------------------------------------------------------------------------- -/

lemma string_length_pos_iff (s : String) : 0 < s.length ↔ ¬ s = "" := by
  constructor
  · intro hlen hEq
    rw [hEq] at hlen
    exact absurd hlen (by decide)
  · intro hne
    cases s with
    | mk data =>
      cases data with
      | nil => exact absurd rfl hne
      | cons c cs => simp [String.length]

lemma svcLabelNe (s : String) :
    ("__meta_kubernetes_service_label_" ++ s) ≠ "__meta_kubernetes_namespace" := by
  intro h
  have hl := congrArg String.length h
  rw [String.length_append] at hl
  have h1 : ("__meta_kubernetes_service_label_" : String).length = 32 := by decide
  have h2 : ("__meta_kubernetes_namespace" : String).length = 27 := by decide
  rw [h1, h2] at hl
  omega

lemma nsFilter_matchLabels (ls : List (String × String)) :
    (ls.map matchLabelRule).filter isNsFilterRule = [] := by
  simp only [List.filter_eq_nil_iff, List.mem_map]
  rintro r ⟨kv, _, rfl⟩
  simp [isNsFilterRule, matchLabelRule, svcLabelNe]

lemma nsFilter_exprRules (e : LabelSelectorRequirement) :
    (exprRules e).filter isNsFilterRule = [] := by
  unfold exprRules
  repeat' split
  · simp [isNsFilterRule, svcLabelNe]
  · rfl
  · simp [isNsFilterRule, svcLabelNe]
  · rfl
  · rfl

lemma nsFilter_exprList (exps : List LabelSelectorRequirement) :
    (exps.flatMap exprRules).filter isNsFilterRule = [] := by
  simp only [List.filter_eq_nil_iff, List.mem_flatMap]
  rintro r ⟨e, _, hre⟩
  have h := nsFilter_exprRules e
  rw [List.filter_eq_nil_iff] at h
  exact h r hre

lemma nsFilter_nsRules (m : ServiceMonitor) :
    (nsRules m).filter isNsFilterRule = nsRules m := by
  unfold nsRules
  repeat' split
  all_goals rfl

lemma nsFilter_portFilterRules (ep : Endpoint) :
    (portFilterRules ep).filter isNsFilterRule = [] := by
  unfold portFilterRules
  repeat' split
  all_goals rfl

lemma nsFilter_structuralRules : structuralRules.filter isNsFilterRule = [] := rfl

lemma nsFilter_jobRules (ep : Endpoint) : (jobRules ep).filter isNsFilterRule = [] := by
  unfold jobRules
  repeat' split
  all_goals rfl

lemma nsFilter_jobLabelRules (m : ServiceMonitor) (ep : Endpoint) :
    (jobLabelRules m ep).filter isNsFilterRule = [] := by
  unfold jobLabelRules
  repeat' split
  all_goals rfl

/-- Claim C5: at most one namespace-filter rule is emitted, by the claimed
precedence: a non-empty explicit name list yields a keep rule on the names'
alternation (even when `any` is also set); otherwise `any` yields no rule;
otherwise a keep rule on the monitor's own namespace. -/
theorem claim_C5 (m : ServiceMonitor) (ep : Endpoint) (i : Nat) :
    (generateServiceMonitorConfig m ep i).relabelConfigs.filter isNsFilterRule =
      (if m.spec.namespaceSelector.matchNames ≠ [] then
        [{ action := some "keep",
           sourceLabels := some ["__meta_kubernetes_namespace"],
           regex := some (String.intercalate "|" m.spec.namespaceSelector.matchNames) }]
      else if m.spec.namespaceSelector.any = true then []
      else
        [{ action := some "keep",
           sourceLabels := some ["__meta_kubernetes_namespace"],
           regex := some m.nspace }]) := by
  have hmain : (generateServiceMonitorConfig m ep i).relabelConfigs.filter isNsFilterRule = nsRules m := by
    simp only [generateServiceMonitorConfig, List.filter_append, nsFilter_matchLabels,
      nsFilter_exprList, nsFilter_nsRules, nsFilter_portFilterRules, nsFilter_structuralRules,
      nsFilter_jobRules, nsFilter_jobLabelRules, List.nil_append, List.append_nil]
  rw [hmain]
  unfold nsRules
  cases h1 : m.spec.namespaceSelector.matchNames with
  | nil =>
    by_cases h2 : m.spec.namespaceSelector.any = true <;> simp [h1, h2]
  | cons n rest =>
    simp [h1]

/- ---------------------------------------------------------------------------
Claims C6-C10.
--------------------------------------------------------------------------- -/

/-- Claim C6: for every alerting target, the scheme defaults to `http` when
unset, and the relabel rules are, in order: a keep on the discovered service
name (regex = the target's literal name), a keep on the discovered namespace
(regex = the target's literal namespace), then at most one port-filter keep
rule, a string-form port taking precedence over a nonzero numeric port. -/
theorem claim_C6 (am : AlertmanagerEndpoints) :
    (generateAlertmanagerConfig am).scheme = (if am.scheme = "" then "http" else am.scheme) ∧
    (generateAlertmanagerConfig am).relabelConfigs.take 2 =
      [{ action := some "keep",
         sourceLabels := some ["__meta_kubernetes_service_name"],
         regex := some am.name },
       { action := some "keep",
         sourceLabels := some ["__meta_kubernetes_namespace"],
         regex := some am.nspace }] ∧
    (generateAlertmanagerConfig am).relabelConfigs.drop 2 =
      (if am.port.strVal ≠ "" then
        [{ action := some "keep",
           sourceLabels := some ["__meta_kubernetes_endpoint_port_name"],
           regex := some am.port.string }]
      else if am.port.intVal ≠ 0 then
        [{ action := some "keep",
           sourceLabels := some ["__meta_kubernetes_container_port_number"],
           regex := some am.port.string }]
      else []) := by
  refine ⟨rfl, rfl, ?_⟩
  by_cases h1 : am.port.strVal = "" <;> by_cases h2 : am.port.intVal = 0 <;>
    simp [generateAlertmanagerConfig, h1, h2]

/-- Claim C7: makeStatefulSet clamps a declared replica count below 1 up to 1,
and the alerting-engine container's command line is the five fixed arguments
followed by exactly one mesh-peer argument
`<name>-<i>.alertmanager.<namespace>.svc` per effective replica, for
ordinals 0 .. replicas-1 (the config-reloader sidecar has no command). -/
theorem claim_C7 (am : Alertmanager) (old : Option StatefulSet) :
    (makeStatefulSet am old).spec.replicas =
      (if am.spec.replicas < 1 then 1 else am.spec.replicas) ∧
    1 ≤ (makeStatefulSet am old).spec.replicas ∧
    ((makeStatefulSet am old).spec.template.spec.containers.map Container.command) =
      [["/bin/alertmanager",
        "-config.file=/etc/alertmanager/config/alertmanager.yaml",
        "-web.listen-address=:9093",
        "-mesh.listen-address=:6783",
        "-storage.path=/etc/alertmanager/data"]
       ++ (List.range (if am.spec.replicas < 1 then 1 else am.spec.replicas).toNat).map
            (fun i => "-mesh.peer=" ++ am.name ++ "-" ++ toString i ++ "." ++ "alertmanager"
                      ++ "." ++ am.nspace ++ ".svc"),
       []] := by
  have hrep : (makeStatefulSet am old).spec.replicas =
      (if am.spec.replicas < 1 then 1 else am.spec.replicas) := by
    unfold makeStatefulSet
    cases am.spec.storage <;> cases old <;> rfl
  refine ⟨hrep, ?_, ?_⟩
  · rw [hrep]
    by_cases h : am.spec.replicas < 1
    · simp [h]
    · simp only [h, if_false]
      omega
  · unfold makeStatefulSet
    cases am.spec.storage <;> cases old <;> rfl

/-- Claim C8: with no storage spec, makeStatefulSet attaches exactly one
empty-directory volume, named `<name>-db`, and no claim templates; with a
storage spec it attaches no empty-directory volume and exactly one claim
template named `<name>-db` carrying the supplied resources and selector with
read-write-once access, annotated with the storage class iff the class name
is non-empty. -/
theorem claim_C8 (am : Alertmanager) (old : Option StatefulSet) :
    (am.spec.storage = none →
      ((makeStatefulSet am old).spec.template.spec.volumes.filter
          fun v => decide (v.source = VolumeSource.emptyDir)) =
        [{ name := am.name ++ "-db", source := VolumeSource.emptyDir }] ∧
      (makeStatefulSet am old).spec.volumeClaimTemplates = []) ∧
    (∀ vc, am.spec.storage = some vc →
      ((makeStatefulSet am old).spec.template.spec.volumes.filter
          fun v => decide (v.source = VolumeSource.emptyDir)) = [] ∧
      (makeStatefulSet am old).spec.volumeClaimTemplates =
        [{ meta := { name := am.name ++ "-db",
                     annotations := if vc.Class ≠ "" then
                         [("volume.beta.kubernetes.io/storage-class", vc.Class)]
                       else [] },
           spec := { accessModes := ["ReadWriteOnce"],
                     resources := vc.resources,
                     selector := vc.selector } }]) := by
  constructor
  · intro h
    unfold makeStatefulSet
    rw [h]
    cases old <;> exact ⟨rfl, rfl⟩
  · intro vc h
    have hif :
        (if vc.Class.length > 0 then
          [("volume.beta.kubernetes.io/storage-class", vc.Class)]
        else ([] : List (String × String))) =
        (if vc.Class ≠ "" then
          [("volume.beta.kubernetes.io/storage-class", vc.Class)]
        else []) :=
      if_congr (string_length_pos_iff vc.Class) rfl rfl
    unfold makeStatefulSet
    rw [h]
    cases old <;> refine ⟨rfl, ?_⟩ <;> · rw [← hif]; rfl

/-- Claim C8, witness: the amended-free theorem applied at a concrete target
with a storage spec of class `fast`. -/
theorem claim_C8_witness :
    ((makeStatefulSet { name := "al", spec := { storage := some { Class := "fast" } } } none).spec.template.spec.volumes.filter
        fun v => decide (v.source = VolumeSource.emptyDir)) = [] ∧
    (makeStatefulSet { name := "al", spec := { storage := some { Class := "fast" } } } none).spec.volumeClaimTemplates =
      [{ meta := { name := "al-db",
                   annotations := [("volume.beta.kubernetes.io/storage-class", "fast")] },
         spec := { accessModes := ["ReadWriteOnce"],
                   resources := {},
                   selector := none } }] :=
  (claim_C8 { name := "al", spec := { storage := some { Class := "fast" } } } none).2
    { Class := "fast" } rfl

/-- Claim C9: the output of makeStatefulSet depends on the previous manifest
only through its annotations, which are copied verbatim; with no previous
manifest the output carries no annotations. -/
theorem claim_C9 (am : Alertmanager) (old : StatefulSet) :
    makeStatefulSet am (some old) =
      { makeStatefulSet am none with
        meta := { (makeStatefulSet am none).meta with annotations := old.meta.annotations } } ∧
    (makeStatefulSet am none).meta.annotations = [] := by
  constructor
  · unfold makeStatefulSet
    cases am.spec.storage <;> rfl
  · unfold makeStatefulSet
    cases am.spec.storage <;> rfl

/-- Claim C10: makeStatefulSetService ignores its input: every call returns
the same fixed headless service, named `alertmanager`, with no cluster IP,
exactly the two TCP ports web 9093 and mesh 6783, and the fixed selector
`app: alertmanager`. -/
theorem claim_C10 (p q : Alertmanager) :
    makeStatefulSetService p = makeStatefulSetService q ∧
    (makeStatefulSetService p).meta.name = "alertmanager" ∧
    (makeStatefulSetService p).spec.clusterIP = "None" ∧
    (makeStatefulSetService p).spec.ports =
      [{ name := "web", port := 9093,
         targetPort := { isString := false, intVal := 9093, strVal := "" },
         protocol := "TCP" },
       { name := "mesh", port := 6783,
         targetPort := { isString := false, intVal := 6783, strVal := "" },
         protocol := "TCP" }] ∧
    (makeStatefulSetService p).spec.selector = [("app", "alertmanager")] :=
  ⟨rfl, rfl, rfl, rfl, rfl⟩
